import Mathlib

/-!
Shallow embedding of the Anthropic provider adapter
(`src/Example_Functions/anthropic_v2.py`, class `Pipe`) and proofs about it.

Python values that the adapter manipulates are modelled by explicit inductive
types; machine strings are Lean `String`s (byte-level details such as UTF-8 do
not matter for the adapter's logic); fallible Python code (raising exceptions)
is modelled with `Except PyExn`; the mutable instance attribute
`self.request_id` is modelled by explicit state passing of a `PipeState`.
-/

namespace AnthropicPipe

/-- Python exceptions that the adapter's code paths can raise.  The
`valueError` constructor carries the message string built at the raise site;
for `keyError`, Python's `str(KeyError(k))` renders as `'k'` (quoted), which
`renderExn` reproduces.  The precise interpreter texts of `TypeError` /
`AttributeError` / JSON-decode errors are irrelevant to every claim and are
abstracted to fixed strings. -/
inductive PyExn where
  | keyError (k : String)
  | typeError
  | attributeError
  | indexError
  | valueError (msg : String)
  | jsonDecodeError
  deriving Repr, DecidableEq

/-- Rendering `str(e)` of an exception, as used in the adapter's
`f"Error: {str(e)}"` handlers. -/
def renderExn : PyExn → String
  | PyExn.keyError k => "'" ++ k ++ "'"
  | PyExn.typeError => "TypeError"
  | PyExn.attributeError => "AttributeError"
  | PyExn.indexError => "IndexError"
  | PyExn.valueError m => m
  | PyExn.jsonDecodeError => "JSONDecodeError"

/-! ## JSON values and the parser used by the stream decoder

The streaming path calls `json.loads(line[6:])` on each `data: ` line.  We
embed the JSON value space and a recursive-descent parser for the JSON subset
the adapter's wire format uses (null, booleans, integer numbers, strings with
the single-character escapes, arrays, objects).  Python `json.loads` accepts
more (floats, `\u` escapes); those inputs do not occur in any claim. -/

inductive Json where
  | null
  | bool (b : Bool)
  | num (n : Int)
  | str (s : String)
  | arr (elems : List Json)
  | obj (fields : List (String × Json))
  deriving Repr, Inhabited

/-- Character constants written via code points so that brace characters never
appear literally in the source of this file. -/
def lbraceChar : Char := Char.ofNat 123

def rbraceChar : Char := Char.ofNat 125

def quoteChar : Char := Char.ofNat 34

def backslashChar : Char := Char.ofNat 92

def isWsChar (c : Char) : Bool := c = ' ' ∨ c = '\n' ∨ c = '\t' ∨ c = '\r'

def skipWs : List Char → List Char
  | [] => []
  | c :: cs => if isWsChar c then skipWs cs else c :: cs

/-- Single-character JSON string escapes (`\u` is not supported; inputs using
it are outside the modelled subset and parse as `none`). -/
def unescape (c : Char) : Option Char :=
  if c = quoteChar then some quoteChar
  else if c = backslashChar then some backslashChar
  else if c = '/' then some '/'
  else if c = 'n' then some '\n'
  else if c = 't' then some '\t'
  else if c = 'r' then some '\r'
  else if c = 'b' then some (Char.ofNat 8)
  else if c = 'f' then some (Char.ofNat 12)
  else Option.none

/-- Parses the body of a JSON string after the opening quote; returns the
decoded characters and the rest of the input after the closing quote. -/
def parseStringBody : Nat → List Char → Option (List Char × List Char)
  | 0, _ => Option.none
  | _, [] => Option.none
  | fuel + 1, c :: cs =>
    if c = quoteChar then some ([], cs)
    else if c = backslashChar then
      match cs with
      | [] => Option.none
      | e :: cs2 =>
        match unescape e with
        | some r => (parseStringBody fuel cs2).map (fun p => (r :: p.1, p.2))
        | Option.none => Option.none
    else (parseStringBody fuel cs).map (fun p => (c :: p.1, p.2))

/-- Reads a maximal run of digits, returning the digit characters and rest. -/
def takeDigits : List Char → List Char × List Char
  | [] => ([], [])
  | c :: cs =>
    if c.isDigit then
      let (ds, rest) := takeDigits cs
      (c :: ds, rest)
    else ([], c :: cs)

def digitsToNat (ds : List Char) : Nat :=
  ds.foldl (fun acc c => acc * 10 + (c.toNat - 48)) 0

/-- Parses a JSON integer number (optional minus sign, digit run).  A following
`.`, `e` or `E` would denote a float, which is outside the modelled subset, so
the parse fails there. -/
def parseNumber (input : List Char) : Option (Json × List Char) :=
  let (neg, body) :=
    match input with
    | '-' :: rest => (true, rest)
    | _ => (false, input)
  match takeDigits body with
  | ([], _) => Option.none
  | (ds, rest) =>
    match rest with
    | '.' :: _ => Option.none
    | 'e' :: _ => Option.none
    | 'E' :: _ => Option.none
    | _ =>
      let n : Int := Int.ofNat (digitsToNat ds)
      some (Json.num (if neg then -n else n), rest)

/-- Checks that `lit` is a prefix of the input and consumes it. -/
def expectLit (lit : List Char) (input : List Char) : Option (List Char) :=
  if lit.isPrefixOf input then some (input.drop lit.length) else Option.none

/-- Parsing mode for the single fuel-indexed recursive-descent parser:
a whole value, the inside of an object (after the opening brace), one or more
object members, the inside of an array (after `[`), or one or more array
elements.  A single function (rather than a mutual block) keeps the recursion
structural on the fuel so that concrete parses reduce definitionally. -/
inductive PMode where
  | value
  | objBody
  | members
  | arrBody
  | elements

/-- Recursive-descent JSON parser (fuel-indexed, mode-tagged). -/
def parseP : Nat → PMode → List Char → Option (Json × List Char)
  | 0, _, _ => Option.none
  | fuel + 1, PMode.value, input =>
    match skipWs input with
    | [] => Option.none
    | c :: cs =>
      if c = quoteChar then
        (parseStringBody (fuel + 1) cs).map (fun p => (Json.str (String.mk p.1), p.2))
      else if c = lbraceChar then
        parseP fuel PMode.objBody cs
      else if c = '[' then
        parseP fuel PMode.arrBody cs
      else if c = 't' then
        (expectLit ['r', 'u', 'e'] cs).map (fun rest => (Json.bool true, rest))
      else if c = 'f' then
        (expectLit ['a', 'l', 's', 'e'] cs).map (fun rest => (Json.bool false, rest))
      else if c = 'n' then
        (expectLit ['u', 'l', 'l'] cs).map (fun rest => (Json.null, rest))
      else
        parseNumber (c :: cs)
  | fuel + 1, PMode.objBody, input =>
    match skipWs input with
    | [] => Option.none
    | c :: cs =>
      if c = rbraceChar then some (Json.obj [], cs)
      else parseP fuel PMode.members (c :: cs)
  | fuel + 1, PMode.members, input =>
    match skipWs input with
    | [] => Option.none
    | c :: cs =>
      if c = quoteChar then
        match parseStringBody (fuel + 1) cs with
        | Option.none => Option.none
        | some (key, rest1) =>
          match skipWs rest1 with
          | ':' :: rest2 =>
            match parseP fuel PMode.value rest2 with
            | Option.none => Option.none
            | some (v, rest3) =>
              match skipWs rest3 with
              | ',' :: rest4 =>
                match parseP fuel PMode.members rest4 with
                | some (Json.obj kvs, rest5) =>
                  some (Json.obj ((String.mk key, v) :: kvs), rest5)
                | _ => Option.none
              | c2 :: rest4 =>
                if c2 = rbraceChar then
                  some (Json.obj [(String.mk key, v)], rest4)
                else Option.none
              | [] => Option.none
          | _ => Option.none
      else Option.none
  | fuel + 1, PMode.arrBody, input =>
    match skipWs input with
    | ']' :: rest => some (Json.arr [], rest)
    | _ => parseP fuel PMode.elements input
  | fuel + 1, PMode.elements, input =>
    match parseP fuel PMode.value input with
    | Option.none => Option.none
    | some (v, rest1) =>
      match skipWs rest1 with
      | ',' :: rest2 =>
        match parseP fuel PMode.elements rest2 with
        | some (Json.arr xs, rest3) => some (Json.arr (v :: xs), rest3)
        | _ => Option.none
      | ']' :: rest2 => some (Json.arr [v], rest2)
      | _ => Option.none

/-- Embedding of `json.loads` on the modelled subset: parse one value and
require only whitespace afterwards.  The fuel `4 * length + 16` is generous:
every recursive descent step either consumes input or immediately dispatches
to a consuming step. -/
def jsonParse (input : List Char) : Option Json :=
  match parseP (4 * input.length + 16) PMode.value input with
  | some (j, rest) => if (skipWs rest).isEmpty then some j else Option.none
  | Option.none => Option.none

/-- Last-binding-wins association lookup: `json.loads` builds Python dicts in
which a duplicated key keeps its last occurrence. -/
def assocGetLast : List (String × Json) → String → Option Json
  | [], _ => Option.none
  | (k, v) :: rest, key =>
    match assocGetLast rest key with
    | some r => some r
    | Option.none => if k = key then some v else Option.none

/-- Python `v[k]` for string `k`: dict lookup (KeyError when missing),
TypeError on non-dict values. -/
def jsonIndexStr (j : Json) (k : String) : Except PyExn Json :=
  match j with
  | Json.obj kvs =>
    match assocGetLast kvs k with
    | some v => Except.ok v
    | Option.none => Except.error (PyExn.keyError k)
  | _ => Except.error PyExn.typeError

/-- Tests whether a JSON value is the given Python string. -/
def isStr (j : Json) (s : String) : Bool :=
  match j with
  | Json.str t => t = s
  | _ => false

/-- Python `k in v` for a string `k`: key membership for dicts, substring test
for strings, element equality for lists; TypeError (modelled as `none`) for
the other values. -/
def jsonContainsKey (j : Json) (k : String) : Option Bool :=
  match j with
  | Json.obj kvs => some (kvs.any (fun kv => kv.1 = k))
  | Json.str s => some ((s.splitOn k).length ≠ 1)
  | Json.arr xs => some (xs.any (fun x => isStr x k))
  | _ => Option.none

/-! ## The stream decoder (`_stream_with_ui`, lines 350-375)

The decoding loop over `response.content` lines is embedded as a function
from the list of body lines to the list of yielded fragments plus how the
loop ended.  Logging (`logging.error` on a malformed line) is a side effect
outside the model; the observable behavior — the line is skipped and
consumption continues — is what the embedding captures. -/

inductive StreamEnd where
  | completed
  | exhausted
  | failed (e : PyExn)
  deriving Repr, DecidableEq

def dataTag : List Char := "data: ".toList

/-- Embedding of the `async for line in response.content` loop body of
`_stream_with_ui`: yields `data["delta"]["text"]` fragments for
content-block-delta events whose delta carries a `text` field, stops on
`message_stop`, skips non-`data: ` lines and lines whose JSON fails to parse
(the `json.JSONDecodeError` handler), and fails the stream on any other
uncaught exception (missing keys, non-dict values). -/
def decodeStream : List (List Char) → List Json × StreamEnd
  | [] => ([], StreamEnd.exhausted)
  | line :: rest =>
    if line ≠ [] ∧ dataTag.isPrefixOf line then
      match jsonParse (line.drop 6) with
      | Option.none => decodeStream rest
      | some data =>
        match jsonIndexStr data "type" with
        | Except.error e => ([], StreamEnd.failed e)
        | Except.ok ty =>
          if isStr ty "content_block_delta" then
            match jsonIndexStr data "delta" with
            | Except.error e => ([], StreamEnd.failed e)
            | Except.ok delta =>
              match jsonContainsKey delta "text" with
              | Option.none => ([], StreamEnd.failed PyExn.typeError)
              | some true =>
                match jsonIndexStr delta "text" with
                | Except.error e => ([], StreamEnd.failed e)
                | Except.ok frag =>
                  let (fs, ending) := decodeStream rest
                  (frag :: fs, ending)
              | some false => decodeStream rest
          else if isStr ty "message_stop" then ([], StreamEnd.completed)
          else decodeStream rest
    else decodeStream rest

/-- Python truthiness of a JSON-shaped value (used for
`if pdf_data.get("cache_control"):`). -/
def jsonTruthy : Json → Bool
  | Json.null => false
  | Json.bool b => b
  | Json.num n => n ≠ 0
  | Json.str s => s ≠ ""
  | Json.arr xs => !xs.isEmpty
  | Json.obj kvs => !kvs.isEmpty

/-! ## String helpers mirroring the Python string operations the adapter uses -/

/-- Python `str.split(sep)` for a one-character separator (all occurrences;
`"".split(sep)` gives `[""]`). -/
def splitAll (sep : Char) : List Char → List (List Char)
  | [] => [[]]
  | c :: cs =>
    let r := splitAll sep cs
    if c = sep then [] :: r
    else
      match r with
      | [] => [[c]]
      | h :: t => (c :: h) :: t

/-- Python `str.split(sep, 1)` when the separator occurs (first split point);
`none` when the separator is absent, in which case the adapter's tuple
unpacking `a, b = s.split(",", 1)` raises a ValueError. -/
def splitFirstAux (sep : Char) : List Char → Option (List Char × List Char)
  | [] => Option.none
  | c :: cs =>
    if c = sep then some ([], cs)
    else (splitFirstAux sep cs).map (fun p => (c :: p.1, p.2))

def splitFirst (s : String) (sep : Char) : Option (String × String) :=
  (splitFirstAux sep s.toList).map (fun p => (String.mk p.1, String.mk p.2))

/-- Python `str.startswith(p)`. -/
def strStartsWith (s p : String) : Bool := p.toList.isPrefixOf s.toList

/-- Python `s.split("/")[-1]` (used on model identifiers of the form
`provider/model-name`; `split` never returns an empty list, so `[-1]` is
total). -/
def lastPathComponent (s : String) : String :=
  String.mk ((splitAll '/' s.toList).getLastD [])

/-! ## Adapter constants (`Pipe` class attributes, lines 42-63) -/

def SUPPORTED_IMAGE_TYPES : List String :=
  ["image/jpeg", "image/png", "image/gif", "image/webp"]

def SUPPORTED_PDF_MODELS : List String :=
  ["claude-3-5-sonnet-20241022", "claude-3-5-sonnet-20240620"]

def MAX_IMAGE_SIZE : Nat := 5 * 1024 * 1024

def MODEL_MAX_TOKENS : List (String × Nat) :=
  [("claude-3-opus-20240229", 4096),
   ("claude-3-sonnet-20240229", 4096),
   ("claude-3-haiku-20240307", 4096),
   ("claude-3-5-sonnet-20240620", 8192),
   ("claude-3-5-sonnet-20241022", 8192),
   ("claude-3-5-haiku-20241022", 8192),
   ("claude-3-opus-latest", 4096),
   ("claude-3-5-sonnet-latest", 8192),
   ("claude-3-5-haiku-latest", 8192)]

/-! ## Content normalization (`process_content`, `process_image`,
`process_pdf`, lines 102-170) -/

/-- The `source` sub-dict of an outbound image/document item. -/
inductive Source where
  | base64 (mediaType : String) (data : String)
  | url (u : String)
  deriving Repr, DecidableEq

/-- An outbound content item, mirroring the dicts the adapter builds: a
`type` tag plus the optional `text`, `source` and `cache_control` keys (a
key that the Python dict does not carry is `Option.none`). -/
structure OutItem where
  type : String
  text : Option String := Option.none
  source : Option Source := Option.none
  cacheControl : Option Json := Option.none
  deriving Repr

/-- An inbound content item of a message (`item` in `process_content`):
the constructors encode the `item["type"]` tag and the fields each branch of
the adapter reads.  `other ty` stands for an item whose tag is none of
`text` / `image_url` / `pdf_url`; such items fall through every branch of
`process_content`.  Every inbound item may carry a `cache_control` key (the
adapter only ever reads it on pdf items). -/
inductive InItem where
  | text (s : String)
  | imageUrl (url : String) (cacheControl : Option Json)
  | pdfUrl (url : String) (model : Option String) (cacheControl : Option Json)
  | other (ty : String) (cacheControl : Option Json)
  deriving Repr

/-- A message's `content` value: a plain string or a list of typed items. -/
inductive ContentIn where
  | str (s : String)
  | items (l : List InItem)
  deriving Repr

/-- Truthiness of the optional `cache_control` value
(`if pdf_data.get("cache_control"):`). -/
def ccTruthy : Option Json → Bool
  | some j => jsonTruthy j
  | Option.none => false

/-- Embedding of `process_image` (lines 121-142).  For `data:image...` URLs
the adapter splits at the first comma into mime prefix and base64 payload and
derives the media type (`mime.split(":")[1].split(";")[0]`); the `[1]` index
is total because the `data:image` prefix guarantees a colon.  The returned
item never carries `cache_control`, whatever the inbound item carried. -/
def process_image (url : String) : Except PyExn OutItem :=
  if strStartsWith url "data:image" then
    match splitFirst url ',' with
    | Option.none =>
      Except.error (PyExn.valueError "not enough values to unpack (expected 2, got 1)")
    | some (mime, b64) =>
      let afterColon := (splitAll ':' mime.toList).getD 1 []
      let mediaType := String.mk ((splitAll ';' afterColon).headD [])
      if mediaType ∈ SUPPORTED_IMAGE_TYPES then
        Except.ok { type := "image", source := some (Source.base64 mediaType b64) }
      else
        Except.error (PyExn.valueError ("Unsupported media type: " ++ mediaType))
  else
    Except.ok { type := "image", source := some (Source.url url) }

/-- Embedding of `process_pdf` (lines 144-170): both the base64 and the url
branch attach the inbound `cache_control` when it is truthy. -/
def process_pdf (url : String) (cc : Option Json) : Except PyExn OutItem :=
  if strStartsWith url "data:application/pdf" then
    match splitFirst url ',' with
    | Option.none =>
      Except.error (PyExn.valueError "not enough values to unpack (expected 2, got 1)")
    | some (_mime, b64) =>
      let doc : OutItem :=
        { type := "document", source := some (Source.base64 "application/pdf" b64) }
      Except.ok (if ccTruthy cc then { doc with cacheControl := cc } else doc)
  else
    let doc : OutItem := { type := "document", source := some (Source.url url) }
    Except.ok (if ccTruthy cc then { doc with cacheControl := cc } else doc)

/-- The error message raised for a pdf item on an unsupported model
(`", ".join(self.SUPPORTED_PDF_MODELS)`). -/
def pdfModelsMsg : String :=
  "PDF support is only available for models: " ++
    String.intercalate ", " SUPPORTED_PDF_MODELS

/-- Embedding of the item loop of `process_content` (lines 106-119): text
items are copied, image items go through `process_image`, pdf items are
checked against `SUPPORTED_PDF_MODELS` (on `item.get("model", "")` reduced to
its last `/` component) before `process_pdf`, and items of any other kind are
silently dropped. -/
def process_content_items : List InItem → Except PyExn (List OutItem)
  | [] => Except.ok []
  | item :: rest =>
    match item with
    | InItem.text s =>
      match process_content_items rest with
      | Except.error e => Except.error e
      | Except.ok out => Except.ok ({ type := "text", text := some s } :: out)
    | InItem.imageUrl url _cc =>
      match process_image url with
      | Except.error e => Except.error e
      | Except.ok it =>
        match process_content_items rest with
        | Except.error e => Except.error e
        | Except.ok out => Except.ok (it :: out)
    | InItem.pdfUrl url model cc =>
      if lastPathComponent (model.getD "") ∈ SUPPORTED_PDF_MODELS then
        match process_pdf url cc with
        | Except.error e => Except.error e
        | Except.ok it =>
          match process_content_items rest with
          | Except.error e => Except.error e
          | Except.ok out => Except.ok (it :: out)
      else Except.error (PyExn.valueError pdfModelsMsg)
    | InItem.other _ _ => process_content_items rest

/-- Embedding of `process_content` (lines 102-119): a plain string becomes a
single text item. -/
def process_content : ContentIn → Except PyExn (List OutItem)
  | ContentIn.str s => Except.ok [{ type := "text", text := some s }]
  | ContentIn.items l => process_content_items l

/-- Rounds the fraction `n / d` to the nearest integer, ties to even
(the rounding Python's float formatting applies). -/
def roundHalfEven (n d : Nat) : Nat :=
  let q := n / d
  let r := n % d
  if 2 * r > d then q + 1
  else if 2 * r < d then q
  else if q % 2 = 0 then q else q + 1

def pad2 (n : Nat) : String :=
  if n < 10 then "0" ++ toString n else toString n

/-- The size-limit error message of `_process_messages`:
`f"Image size exceeds 5MB limit: {image_size / (1024 * 1024):.2f}MB"`.
The argument is four times the estimated byte size (i.e. `3 * len(data)`),
kept integral; the two-decimal megabyte rendering reproduces Python's `.2f`
(round-half-even on the exact rational, which agrees with the binary float
at these magnitudes). -/
def imageSizeMsg (sizeTimes4 : Nat) : String :=
  let hundredths := roundHalfEven (sizeTimes4 * 100) (4 * 1024 * 1024)
  "Image size exceeds 5MB limit: " ++ toString (hundredths / 100) ++ "." ++
    pad2 (hundredths % 100) ++ "MB"

/-- Embedding of the per-item body of the `_process_messages` loop
(lines 393-418): ephemeral cache-control is attached to `tool_calls` items of
assistant messages and `tool_results` items of user messages, and inline
(base64) image items are checked against the size ceiling and the supported
media types.  The Python size estimate `len(data) * 3 / 4` is exact float
arithmetic, embedded as the equivalent integer comparison
`3 * len > 4 * MAX_IMAGE_SIZE`; the raised message carries the computed
estimate (see `imageSizeMsg`). -/
def processMessageItem (role : String) (c : OutItem) : Except PyExn OutItem :=
  if role = "assistant" ∧ c.type = "tool_calls" then
    Except.ok { c with cacheControl := some (Json.obj [("type", Json.str "ephemeral")]) }
  else if role = "user" ∧ c.type = "tool_results" then
    Except.ok { c with cacheControl := some (Json.obj [("type", Json.str "ephemeral")]) }
  else if c.type = "image" then
    match c.source with
    | some (Source.base64 mt data) =>
      if 3 * data.length > 4 * MAX_IMAGE_SIZE then
        Except.error (PyExn.valueError (imageSizeMsg (3 * data.length)))
      else if mt ∉ SUPPORTED_IMAGE_TYPES then
        Except.error (PyExn.valueError ("Unsupported media type: " ++ mt))
      else Except.ok c
    | some (Source.url _) => Except.ok c
    | Option.none => Except.error (PyExn.keyError "source")
  else Except.ok c

/-- An inbound message: `role` plus `content`. -/
structure InMessage where
  role : String
  content : ContentIn
  deriving Repr

/-- A processed message as appended by `_process_messages`:
`{"role": message["role"], "content": processed_content}`. -/
structure OutMessage where
  role : String
  content : List OutItem
  deriving Repr

/-- First-error list traversal (the Python `for` loops abort on the first
raised exception). -/
def mapE (f : α → Except PyExn β) : List α → Except PyExn (List β)
  | [] => Except.ok []
  | a :: rest =>
    match f a with
    | Except.error e => Except.error e
    | Except.ok b =>
      match mapE f rest with
      | Except.error e => Except.error e
      | Except.ok bs => Except.ok (b :: bs)

/-- Embedding of the per-message body of `_process_messages`
(lines 391-421). -/
def processMessage (m : InMessage) : Except PyExn OutMessage :=
  match process_content m.content with
  | Except.error e => Except.error e
  | Except.ok cs =>
    match mapE (processMessageItem m.role) cs with
    | Except.error e => Except.error e
    | Except.ok cs2 => Except.ok { role := m.role, content := cs2 }

/-- Embedding of `_process_messages` (lines 389-422). -/
def processMessages (msgs : List InMessage) : Except PyExn (List OutMessage) :=
  mapE processMessage msgs

/-! ## Python values and the request payload (`pipe`, lines 199-237) -/

/-- Python values as they appear in the payload dict. -/
inductive PyVal where
  | none
  | str (s : String)
  | int (n : Int)
  | float (q : Rat)
  | bool (b : Bool)
  | pyList (xs : List PyVal)
  | dict (fields : List (String × PyVal))
  deriving Repr

def PyVal.isNone : PyVal → Bool
  | PyVal.none => true
  | _ => false

/-- Python truthiness of a payload value (`if payload["stream"]:`). -/
def PyVal.truthy : PyVal → Bool
  | PyVal.none => false
  | PyVal.str s => s ≠ ""
  | PyVal.int n => n ≠ 0
  | PyVal.float q => q ≠ 0
  | PyVal.bool b => b
  | PyVal.pyList xs => !xs.isEmpty
  | PyVal.dict kvs => !kvs.isEmpty

/-- A JSON value (e.g. a copied `cache_control` dict) as a Python value. -/
def encodeJson : Json → PyVal
  | Json.null => PyVal.none
  | Json.bool b => PyVal.bool b
  | Json.num n => PyVal.int n
  | Json.str s => PyVal.str s
  | Json.arr xs => PyVal.pyList (xs.attach.map (fun x => encodeJson x.1))
  | Json.obj kvs => PyVal.dict (kvs.attach.map (fun kv => (kv.1.1, encodeJson kv.1.2)))
decreasing_by
  · have h := List.sizeOf_lt_of_mem x.2
    simp only [Json.arr.sizeOf_spec]
    omega
  · rcases kv with ⟨⟨k, v⟩, hm⟩
    have h := List.sizeOf_lt_of_mem hm
    simp only [Json.obj.sizeOf_spec, Prod.mk.sizeOf_spec] at h ⊢
    omega

def encodeSource : Source → PyVal
  | Source.base64 mt data =>
    PyVal.dict [("type", PyVal.str "base64"), ("media_type", PyVal.str mt),
                ("data", PyVal.str data)]
  | Source.url u => PyVal.dict [("type", PyVal.str "url"), ("url", PyVal.str u)]

/-- A processed content item as the dict the adapter built (keys in the
insertion order of the source: `type`, then `text`/`source`, then
`cache_control`). -/
def encodeOutItem (c : OutItem) : PyVal :=
  PyVal.dict ([("type", PyVal.str c.type)]
    ++ (match c.text with
        | some s => [("text", PyVal.str s)]
        | Option.none => [])
    ++ (match c.source with
        | some src => [("source", encodeSource src)]
        | Option.none => [])
    ++ (match c.cacheControl with
        | some j => [("cache_control", encodeJson j)]
        | Option.none => []))

def encodeMessage (m : OutMessage) : PyVal :=
  PyVal.dict [("role", PyVal.str m.role),
              ("content", PyVal.pyList (m.content.map encodeOutItem))]

/-- Presence of an optional key in the inbound body where the adapter's
behavior distinguishes a missing key from an explicit `None` value
(`body.get(k, default)` vs `k in body`). -/
inductive PyOpt (α : Type) where
  | absent
  | null
  | val (a : α)

/-- The inbound request body, with exactly the keys `pipe` reads.  Fields the
adapter reads via `body.get(k)` (where a missing key and an explicit `None`
behave identically) are `Option`s; fields where the two cases diverge are
`PyOpt`s.  Numeric generation parameters are modelled at their coerced
numeric types (a body carrying e.g. a string temperature that `float()`
accepts is equivalent to carrying the number). -/
structure Body where
  model : String
  messages : List InMessage
  maxTokens : PyOpt Int
  temperature : Option Rat
  topK : Option Int
  topP : Option Rat
  stream : Option Bool
  metadata : PyOpt (List (String × PyVal))
  tools : PyOpt (List PyVal)
  toolChoice : Option PyVal
  responseFormat : PyOpt (Option PyVal)

/-- `MODEL_MAX_TOKENS.get(model_name, 4096)` (line 200). -/
def maxTokensLimit (modelName : String) : Nat :=
  ((MODEL_MAX_TOKENS.find? (fun p => p.1 = modelName)).map Prod.snd).getD 4096

/-- The `max_tokens` payload entry (lines 205-207):
`min(body.get("max_tokens", max_tokens_limit), max_tokens_limit)`.  An
explicit `None` makes Python's `min(None, int)` raise a TypeError. -/
def effectiveMaxTokens (modelName : String) (requested : PyOpt Int) : Except PyExn Int :=
  let limit : Int := Int.ofNat (maxTokensLimit modelName)
  match requested with
  | PyOpt.absent => Except.ok (min limit limit)
  | PyOpt.null => Except.error PyExn.typeError
  | PyOpt.val n => Except.ok (min n limit)

def optFloat : Option Rat → PyVal
  | some q => PyVal.float q
  | Option.none => PyVal.none

def optInt : Option Int → PyVal
  | some n => PyVal.int n
  | Option.none => PyVal.none

def optBool : Option Bool → PyVal
  | some b => PyVal.bool b
  | Option.none => PyVal.none

/-- `body.get("metadata", {})` (line 220): an absent key defaults to the
empty dict (which survives the None-filter); an explicit `None` is filtered
out. -/
def metadataVal : PyOpt (List (String × PyVal)) → PyVal
  | PyOpt.absent => PyVal.dict []
  | PyOpt.null => PyVal.none
  | PyOpt.val kvs => PyVal.dict kvs

/-- Python dict assignment `d[k] = v`: overwrites an existing binding in
place, else appends. -/
def dictSet : List (String × PyVal) → String → PyVal → List (String × PyVal)
  | [], k, v => [(k, v)]
  | (k0, v0) :: rest, k, v =>
    if k0 = k then (k0, v) :: rest else (k0, v0) :: dictSet rest k v

/-- First-binding dict lookup (the payload dict never duplicates keys). -/
def payloadGet : List (String × PyVal) → String → Option PyVal
  | [], _ => Option.none
  | (k, v) :: rest, key => if k = key then some v else payloadGet rest key

/-- `{"type": "function", "function": tool}` (line 230). -/
def wrapTool (t : PyVal) : PyVal :=
  PyVal.dict [("type", PyVal.str "function"), ("function", t)]

/-- The `system` payload text.  `pop_system_message` (from the host package
`open_webui.utils.misc`, not under src) is modelled from the spec; the value
assigned is `str(system_message)` — for the plain-string contents every claim
uses, the content string itself. -/
def systemRender : ContentIn → String
  | ContentIn.str s => s
  | ContentIn.items _ => ""

/-- The base payload dict literal (lines 202-221), given the already-computed
`max_tokens` entry and processed messages, in source key order. -/
def basePayload (modelName : String) (pms : List OutMessage) (maxTok : Int)
    (body : Body) : List (String × PyVal) :=
  [("model", PyVal.str modelName),
   ("messages", PyVal.pyList (pms.map encodeMessage)),
   ("max_tokens", PyVal.int maxTok),
   ("temperature", optFloat body.temperature),
   ("top_k", optInt body.topK),
   ("top_p", optFloat body.topP),
   ("stream", optBool body.stream),
   ("metadata", metadataVal body.metadata)]

/-- Lines 228-232: when `"tools" in body`, wrap each tool and pass
`body.get("tool_choice")` through — note this assignment happens after the
None-filter, so an absent `tool_choice` puts an explicit `None` into the
payload.  A `None`-valued `tools` key makes the list comprehension raise a
TypeError. -/
def addTools (body : Body) (p : List (String × PyVal)) :
    Except PyExn (List (String × PyVal)) :=
  match body.tools with
  | PyOpt.absent => Except.ok p
  | PyOpt.null => Except.error PyExn.typeError
  | PyOpt.val ts =>
    Except.ok (dictSet (dictSet p "tools" (PyVal.pyList (ts.map wrapTool)))
      "tool_choice" (body.toolChoice.getD PyVal.none))

/-- Lines 234-237: when `"response_format" in body`, pass
`{"type": body["response_format"].get("type")}`; a `None` value raises an
AttributeError on `.get`. -/
def addResponseFormat (body : Body) (p : List (String × PyVal)) :
    Except PyExn (List (String × PyVal)) :=
  match body.responseFormat with
  | PyOpt.absent => Except.ok p
  | PyOpt.null => Except.error PyExn.attributeError
  | PyOpt.val t =>
    Except.ok (dictSet p "response_format" (PyVal.dict [("type", t.getD PyVal.none)]))

/-- Embedding of the payload construction of `pipe` (lines 199-237): build the
base dict, drop the `None`-valued entries
(`payload = {k: v for k, v in payload.items() if v is not None}`), then add
`system`, tools and response-format entries. -/
def buildPayload (modelName : String) (pms : List OutMessage)
    (sysMsg : Option ContentIn) (body : Body) :
    Except PyExn (List (String × PyVal)) :=
  match effectiveMaxTokens modelName body.maxTokens with
  | Except.error e => Except.error e
  | Except.ok maxTok =>
    let p0 := (basePayload modelName pms maxTok body).filter (fun kv => !kv.2.isNone)
    let p1 :=
      match sysMsg with
      | some c => dictSet p0 "system" (PyVal.str (systemRender c))
      | Option.none => p0
    match addTools body p1 with
    | Except.error e => Except.error e
    | Except.ok p2 => addResponseFormat body p2

/-! ## Transport with retry (`_send_request`, lines 424-456) -/

/-- An HTTP response as `_send_request` and the non-streaming path of `pipe`
observe it: status code, the parsed `retry-after` header when present (a
parsable non-negative integer; `headers.get` returning it as a string and
`int()` parsing it are collapsed), the `x-request-id` header, the body text,
and the parsed JSON body (`none` when `response.json()` would raise). -/
structure Resp where
  status : Nat
  retryAfter : Option Nat := Option.none
  xRequestId : Option String := Option.none
  bodyText : String := ""
  json : Option Json := Option.none

/-- What `_send_request` returns: a received response, or — after the retry
budget is exhausted on persistent 429s — a freshly constructed empty
`requests.Response()` whose `status_code` is `None` and whose `text` is
empty. -/
inductive SendResult where
  | response (r : Resp)
  | blank

/-- The retry loop of `_send_request`: `responses i` is the response to the
`i`-th POST.  Returns the list of back-off sleeps performed (seconds) and the
result.  `remaining` counts the loop iterations left
(`max_retries - retry_count`); `retryCount` mirrors the Python counter. -/
def sendRequestLoop (responses : Nat → Resp) (baseDelay : Nat) :
    Nat → Nat → List Nat × SendResult
  | _, 0 => ([], SendResult.blank)
  | retryCount, remaining + 1 =>
    let r := responses retryCount
    if r.status = 429 then
      let delay := r.retryAfter.getD (baseDelay * 2 ^ retryCount)
      let rest := sendRequestLoop responses baseDelay (retryCount + 1) remaining
      (delay :: rest.1, rest.2)
    else ([], SendResult.response r)

/-- Embedding of `_send_request` (lines 424-456): `base_delay = 1`,
`max_retries = 3`.  Each loop iteration issues one POST; a 429 sleeps
`retry-after` (or `base_delay * 2 ** retry_count`) and retries; any other
status returns that response; after three 429s the loop exits and a blank
`requests.Response()` is returned. -/
def sendRequest (responses : Nat → Resp) : List Nat × SendResult :=
  sendRequestLoop responses 1 0 3

/-! ## The streaming wrapper and `pipe` (lines 172-322, 324-387) -/

/-- The mutable instance state of `Pipe`: `self.request_id`, set to `None` in
`__init__` and reassigned by `_stream_with_ui` (and by `_handle_response` on
non-200, a path `pipe` never reaches). -/
structure PipeState where
  requestId : Option String
  deriving Repr, DecidableEq

def pipeState0 : PipeState := { requestId := Option.none }

/-- Appends `f" (Request ID: {self.request_id})"` when the instance holds a
request id (the `if self.request_id:` guards; an empty-string id is falsy in
Python and is modelled as absent). -/
def withRequestId (st : PipeState) (msg : String) : String :=
  match st.requestId with
  | some rid => msg ++ " (Request ID: " ++ rid ++ ")"
  | Option.none => msg

/-- The streaming HTTP exchange as `_stream_with_ui` observes it: the initial
status, the `x-request-id` header, the body text used for the non-200 error
message, and the line iterator of the body. -/
structure StreamResp where
  status : Nat
  xRequestId : Option String := Option.none
  bodyText : String := ""
  lines : List (List Char) := []

/-- Embedding of `_stream_with_ui` (lines 324-387), with the generator run to
completion: stores the response's `x-request-id` into the instance state,
yields a single error fragment on a non-200 initial status, otherwise decodes
the body lines; an uncaught exception during decoding yields one final
`Stream error:` fragment after the fragments already produced. -/
def streamWithUI (_st : PipeState) (r : StreamResp) : List Json × PipeState :=
  let st2 : PipeState := { requestId := r.xRequestId }
  if r.status ≠ 200 then
    let msg := "Error: HTTP " ++ toString r.status ++ ": " ++ r.bodyText
    ([Json.str (withRequestId st2 msg)], st2)
  else
    match decodeStream r.lines with
    | (fs, StreamEnd.failed e) =>
      (fs ++ [Json.str (withRequestId st2 ("Stream error: " ++ renderExn e))], st2)
    | (fs, _) => (fs, st2)

/-- The network as seen by one `pipe` invocation: the sequence of responses
the non-streaming POSTs would receive, and the streaming exchange the
streaming branch would open.  `pipe` is parametrized over this so that
"no network call is made" is expressed as independence from the transport. -/
structure Transport where
  post : Nat → Resp
  streamResp : StreamResp

/-- What `pipe` returns to the host. -/
inductive PipeResult where
  | errorText (s : String)
  | success (j : Json)
  | stream (fragments : List Json)
  deriving Repr

/-- Modelled from the spec: `pop_system_message` lives in the host package
`open_webui.utils.misc`, which is not under src.  Per the spec (§3) the
system message "is extracted separately and not part of the message sequence
sent as messages": the first system-role message is returned apart and all
system-role messages are removed from the sequence. -/
def popSystemMessage (msgs : List InMessage) :
    Option ContentIn × List InMessage :=
  ((msgs.find? (fun m => m.role = "system")).map InMessage.content,
   msgs.filter (fun m => m.role ≠ "system"))

/-- `result["content"][0]["text"]` (line 284) on the parsed JSON body of a
200 response. -/
def extractText (j : Json) : Except PyExn Json :=
  match jsonIndexStr j "content" with
  | Except.error e => Except.error e
  | Except.ok c =>
    match c with
    | Json.arr [] => Except.error PyExn.indexError
    | Json.arr (x :: _) => jsonIndexStr x "text"
    | _ => Except.error PyExn.typeError

/-- Embedding of `pipe` (lines 172-322).  The event-emitter callback only
reports status strings and is outside the model.  Control flow: missing API
key fails fast; message processing and payload construction happen before any
transport use and their exceptions are caught by the outer handler (line 313),
which renders `f"Error: {str(e)}"` plus the *current* instance request id;
the `payload["stream"]` lookup raises a KeyError when the key was filtered
out; a truthy stream flag returns the streaming generator (modelled as run to
completion); otherwise `_send_request` is consulted, a non-200 (or blank)
response is rendered as an HTTP error text without request-id suffix
(lines 277-281), and a 200 response has its first content text extracted
(failures there fall to the outer handler). -/
def pipe (st : PipeState) (tr : Transport) (apiKey : String) (body : Body) :
    PipeResult × PipeState :=
  if apiKey = "" then
    (PipeResult.errorText "Error: ANTHROPIC_API_KEY is required", st)
  else
    let sys := (popSystemMessage body.messages).1
    let msgs := (popSystemMessage body.messages).2
    let modelName := lastPathComponent body.model
    match processMessages msgs with
    | Except.error e =>
      (PipeResult.errorText (withRequestId st ("Error: " ++ renderExn e)), st)
    | Except.ok pms =>
      match buildPayload modelName pms sys body with
      | Except.error e =>
        (PipeResult.errorText (withRequestId st ("Error: " ++ renderExn e)), st)
      | Except.ok payload =>
        match payloadGet payload "stream" with
        | Option.none =>
          (PipeResult.errorText
            (withRequestId st ("Error: " ++ renderExn (PyExn.keyError "stream"))), st)
        | some v =>
          if v.truthy then
            let r := streamWithUI st tr.streamResp
            (PipeResult.stream r.1, r.2)
          else
            match sendRequest tr.post with
            | (_, SendResult.blank) =>
              (PipeResult.errorText "Error: HTTP None: ", st)
            | (_, SendResult.response r) =>
              if r.status ≠ 200 then
                (PipeResult.errorText
                  ("Error: HTTP " ++ toString r.status ++ ": " ++ r.bodyText), st)
              else
                match r.json with
                | Option.none =>
                  (PipeResult.errorText
                    (withRequestId st ("Error: " ++ renderExn PyExn.jsonDecodeError)), st)
                | some j =>
                  match extractText j with
                  | Except.error e =>
                    (PipeResult.errorText
                      (withRequestId st ("Error: " ++ renderExn e)), st)
                  | Except.ok t => (PipeResult.success t, st)

/-! ## Concrete scenario inputs used by the claim theorems -/

/-- Three consecutive 429 responses (no `retry-after` header), then 200. -/
def c1Seq : Nat → Resp := fun i =>
  if i < 3 then { status := 429 } else { status := 200 }

def c2Line1 : List Char :=
  ("data: \x7b\"type\":\"content_block_delta\",\"delta\":\x7b\"text\":\"A\"\x7d\x7d").toList

def c2Line2 : List Char :=
  ("data: \x7b\"type\":\"content_block_delta\",\"delta\":\x7b\"text\":\"B\"\x7d\x7d").toList

def c2Line3 : List Char := ("data: \x7b\"type\":\"message_stop\"\x7d").toList

def c2Resp : StreamResp := { status := 200, lines := [c2Line1, c2Line2, c2Line3] }

/-- A `data: ` line whose remainder is not valid JSON. -/
def c7BadLine : List Char := ("data: \x7bnotjson").toList

/-- A transport whose POSTs answer 500 and whose stream exchange is empty; it
only serves to instantiate theorems that hold for every transport. -/
def idleTransport : Transport :=
  { post := fun _ => { status := 500 }, streamResp := { status := 200 } }

/-- A minimal inbound body: empty message list, no optional fields. -/
def minimalBody : Body :=
  { model := "anthropic/claude-3-opus-20240229"
    messages := []
    maxTokens := PyOpt.absent
    temperature := Option.none
    topK := Option.none
    topP := Option.none
    stream := Option.none
    metadata := PyOpt.absent
    tools := PyOpt.absent
    toolChoice := Option.none
    responseFormat := PyOpt.absent }

/-- A pdf item naming a model outside `SUPPORTED_PDF_MODELS`. -/
def c5Item : InItem :=
  InItem.pdfUrl "https://example.com/doc.pdf"
    (some "anthropic/claude-3-opus-20240229") Option.none

/-- A body whose only message carries the unsupported-model pdf item. -/
def c5Body : Body :=
  { minimalBody with
      messages := [{ role := "user", content := ContentIn.items [c5Item] }] }

/-- A body requesting 100000 tokens for the unknown model `claude-2`. -/
def c3Body : Body :=
  { minimalBody with model := "anthropic/claude-2", maxTokens := PyOpt.val 100000 }

/-- The payload `pipe` builds for `c3Body`. -/
def c3Payload : List (String × PyVal) :=
  [("model", PyVal.str "claude-2"),
   ("messages", PyVal.pyList []),
   ("max_tokens", PyVal.int 4096),
   ("metadata", PyVal.dict [])]

/-- The payload `pipe` builds for `minimalBody` (no `stream` key: the
`None`-valued entry is filtered out). -/
def c10Payload : List (String × PyVal) :=
  [("model", PyVal.str "claude-3-opus-20240229"),
   ("messages", PyVal.pyList []),
   ("max_tokens", PyVal.int 4096),
   ("metadata", PyVal.dict [])]

/-- A body with tools supplied but no `tool_choice`. -/
def c6Body : Body := { minimalBody with tools := PyOpt.val [] }

/-- The payload `pipe` builds for `c6Body`. -/
def c6Payload : List (String × PyVal) :=
  [("model", PyVal.str "claude-3-opus-20240229"),
   ("messages", PyVal.pyList []),
   ("max_tokens", PyVal.int 4096),
   ("metadata", PyVal.dict []),
   ("tools", PyVal.pyList []),
   ("tool_choice", PyVal.none)]

/-- A streaming request body. -/
def c8StreamBody : Body := { minimalBody with stream := some true }

/-- A body that fails validation (unsupported-model pdf item), used to observe
which request id an error message carries. -/
def c8ErrBody : Body :=
  { minimalBody with
      messages := [{ role := "user", content := ContentIn.items [c5Item] }] }

/-- A transport whose streaming exchange answers 200 and carries the header
`x-request-id: req-1`. -/
def c8Transport : Transport :=
  { post := fun _ => { status := 500 }
    streamResp := { status := 200, xRequestId := some "req-1" } }

/-- The payload `pipe` builds for `c8StreamBody`. -/
def c8Payload : List (String × PyVal) :=
  [("model", PyVal.str "claude-3-opus-20240229"),
   ("messages", PyVal.pyList []),
   ("max_tokens", PyVal.int 4096),
   ("stream", PyVal.bool true),
   ("metadata", PyVal.dict [])]

/-- An ephemeral cache-control value as a client would attach it. -/
def c9cc : Json := Json.obj [("type", Json.str "ephemeral")]

/-- An inline image item `{"type": "image", "source": {"type": "base64", ...}}`
as produced by `process_image` from a data URL. -/
def imgItem (mt data : String) : OutItem :=
  { type := "image", source := some (Source.base64 mt data) }

/-- A `data:` URL with the given media type and base64 payload. -/
def dataUrl (mt data : String) : String := "data:" ++ mt ++ ";base64," ++ data

/-! ## Helper lemmas -/

theorem strMk_toList (s : String) : String.mk s.toList = s := rfl

theorem toList_append (s t : String) : (s ++ t).toList = s.toList ++ t.toList :=
  String.data_append s t

theorem isPrefixOf_append_self (p x : List Char) :
    p.isPrefixOf (p ++ x) = true := by
  induction p with
  | nil => simp [List.isPrefixOf]
  | cons c cs ih => simp [List.isPrefixOf, ih]

theorem splitFirstAux_no_sep (sep : Char) (pre x : List Char) (h : sep ∉ pre) :
    splitFirstAux sep (pre ++ sep :: x) = some (pre, x) := by
  induction pre with
  | nil => simp [splitFirstAux]
  | cons c cs ih =>
    simp only [List.mem_cons, not_or] at h
    have hcs : ¬ c = sep := fun hh => h.1 hh.symm
    simp [splitFirstAux, hcs, ih h.2]

theorem toList_mk (l : List Char) : (String.mk l).toList = l := rfl

theorem isPrefixOf_append_of_isPrefixOf (p pre x : List Char)
    (h : p.isPrefixOf pre = true) : p.isPrefixOf (pre ++ x) = true := by
  induction p generalizing pre with
  | nil => simp [List.isPrefixOf]
  | cons c cs ih =>
    cases pre with
    | nil => simp [List.isPrefixOf] at h
    | cons d ds =>
      simp only [List.isPrefixOf, Bool.and_eq_true, beq_iff_eq] at h
      simp only [List.cons_append, List.isPrefixOf, Bool.and_eq_true, beq_iff_eq]
      exact ⟨h.1, ih ds h.2⟩

/-- Evaluates `process_image` on a data URL `"data:" ++ mt ++ ";base64," ++ b64`
whose mime prefix `pre` (the part before the first comma) starts with
`data:image`, contains no comma, and yields the media type `mt`. -/
theorem process_image_dataUrl_eval (mt data : String) (pre : List Char)
    (hcat : ("data:" ++ mt ++ ";base64,").toList = pre ++ [','])
    (hpre : "data:image".toList.isPrefixOf pre = true)
    (hnc : ',' ∉ pre)
    (hmedia : String.mk ((splitAll ';' ((splitAll ':' pre).getD 1 [])).headD []) = mt)
    (hmem : mt ∈ SUPPORTED_IMAGE_TYPES) :
    process_image (dataUrl mt data) = Except.ok (imgItem mt data) := by
  have hurl : (dataUrl mt data).toList = pre ++ (',' :: data.toList) := by
    have hsplit : (dataUrl mt data).toList
        = ("data:" ++ mt ++ ";base64,").toList ++ data.toList := by
      simp [dataUrl, toList_append]
    rw [hsplit, hcat, List.append_assoc]
    rfl
  have hsw : strStartsWith (dataUrl mt data) "data:image" = true := by
    rw [strStartsWith, hurl]
    exact isPrefixOf_append_of_isPrefixOf _ pre _ hpre
  have hsp : splitFirst (dataUrl mt data) ',' = some (String.mk pre, data) := by
    rw [splitFirst, hurl, splitFirstAux_no_sep ',' pre data.toList hnc]
    simp [strMk_toList]
  simp only [process_image, hsw, if_true, hsp, toList_mk, hmedia]
  rw [if_pos hmem]
  rfl

theorem payloadGet_dictSet (p : List (String × PyVal)) (k key : String) (v : PyVal) :
    payloadGet (dictSet p k v) key = if key = k then some v else payloadGet p key := by
  induction p with
  | nil =>
    by_cases h : key = k
    · simp [dictSet, payloadGet, h]
    · have h' : ¬ k = key := fun hh => h hh.symm
      simp [dictSet, payloadGet, h, h']
  | cons kv rest ih =>
    obtain ⟨k0, v0⟩ := kv
    by_cases h1 : k0 = k
    · by_cases h2 : key = k
      · have : k0 = key := h1.trans h2.symm
        simp [dictSet, payloadGet, h1, h2, this]
      · have h3 : ¬ k0 = key := fun hh => h2 ((h1.symm.trans hh).symm)
        have h4 : ¬ k = key := fun hh => h2 hh.symm
        simp [dictSet, payloadGet, h1, h2, h3, h4]
    · by_cases h2 : k0 = key
      · have h3 : ¬ key = k := fun hh => h1 (h2.trans hh)
        simp [dictSet, payloadGet, h1, h2, h3]
      · simp [dictSet, payloadGet, h1, h2, ih]

/-- A key every one of whose bindings in `l` is `None`-valued is absent after
the `is not None` filter. -/
theorem payloadGet_filter_none (l : List (String × PyVal)) (key : String)
    (h : ∀ kv ∈ l, kv.1 = key → kv.2.isNone = true) :
    payloadGet (l.filter (fun kv => !kv.2.isNone)) key = Option.none := by
  induction l with
  | nil => rfl
  | cons kv rest ih =>
    have hrest := ih (fun x hx => h x (List.mem_cons_of_mem kv hx))
    by_cases hk : kv.1 = key
    · have hnone := h kv (List.mem_cons_self kv rest) hk
      simp [List.filter, hnone, hrest]
    · by_cases hn : kv.2.isNone
      · simp [List.filter, hn, hrest]
      · simp only [List.filter]
        rw [show (!kv.2.isNone) = true by simp [hn]]
        simp [payloadGet, hk, hrest]

/-- A key whose unique binding in `l` has a non-`None` value survives the
`is not None` filter with that value. -/
theorem payloadGet_filter_found (l : List (String × PyVal)) (key : String) (v : PyVal)
    (hmem : (key, v) ∈ l)
    (huniq : ∀ kv ∈ l, kv.1 = key → kv.2 = v)
    (hv : v.isNone = false) :
    payloadGet (l.filter (fun kv => !kv.2.isNone)) key = some v := by
  induction l with
  | nil => cases hmem
  | cons kv rest ih =>
    obtain ⟨k0, v0⟩ := kv
    by_cases hk : k0 = key
    · have hv0 : v0 = v := huniq (k0, v0) (List.mem_cons_self _ _) hk
      rw [List.filter_cons, if_pos (by simp [hv0, hv])]
      simp [payloadGet, hk, hv0]
    · have hmem2 : (key, v) ∈ rest := by
        rcases List.mem_cons.mp hmem with h1 | h1
        · exact absurd (congrArg Prod.fst h1).symm hk
        · exact h1
      have huniq2 : ∀ kv ∈ rest, kv.1 = key → kv.2 = v :=
        fun kv hkv => huniq kv (List.mem_cons_of_mem _ hkv)
      rw [List.filter_cons]
      by_cases hkeep : (!v0.isNone) = true
      · rw [if_pos (by simpa using hkeep)]
        simp [payloadGet, hk, ih hmem2 huniq2]
      · rw [if_neg (by simpa using hkeep)]
        exact ih hmem2 huniq2

theorem maxTokensLimit_of_not_mem (modelName : String)
    (hm : modelName ∉ MODEL_MAX_TOKENS.map Prod.fst) :
    maxTokensLimit modelName = 4096 := by
  have hfind : MODEL_MAX_TOKENS.find? (fun p => p.1 = modelName) = Option.none := by
    apply List.find?_eq_none.mpr
    intro x hx
    simp only [decide_eq_true_eq]
    intro heq
    exact hm (heq ▸ List.mem_map_of_mem Prod.fst hx)
  simp [maxTokensLimit, hfind]

theorem payloadGet_addTools_ne (body : Body) (p p2 : List (String × PyVal))
    (key : String) (h : addTools body p = Except.ok p2)
    (h2 : key ≠ "tools") (h3 : key ≠ "tool_choice") :
    payloadGet p2 key = payloadGet p key := by
  cases htools : body.tools with
  | absent => simp only [addTools, htools] at h; cases h; rfl
  | null => simp only [addTools, htools] at h; cases h
  | val ts =>
    simp only [addTools, htools] at h
    cases h
    rw [payloadGet_dictSet, if_neg h3, payloadGet_dictSet, if_neg h2]

theorem payloadGet_addResponseFormat_ne (body : Body) (p p2 : List (String × PyVal))
    (key : String) (h : addResponseFormat body p = Except.ok p2)
    (h4 : key ≠ "response_format") :
    payloadGet p2 key = payloadGet p key := by
  cases hrf : body.responseFormat with
  | absent => simp only [addResponseFormat, hrf] at h; cases h; rfl
  | null => simp only [addResponseFormat, hrf] at h; cases h
  | val t =>
    simp only [addResponseFormat, hrf] at h
    cases h
    rw [payloadGet_dictSet, if_neg h4]

/-- Lookup through the tools / response-format stages of `buildPayload`. -/
theorem payload_tail_lookup (body : Body) (pbase p : List (String × PyVal))
    (key : String)
    (h : (match addTools body pbase with
          | Except.error e => Except.error e
          | Except.ok p2 => addResponseFormat body p2) = Except.ok p)
    (h2 : key ≠ "tools") (h3 : key ≠ "tool_choice") (h4 : key ≠ "response_format") :
    payloadGet p key = payloadGet pbase key := by
  cases haddt : addTools body pbase with
  | error e => rw [haddt] at h; cases h
  | ok pmid =>
    rw [haddt] at h
    rw [payloadGet_addResponseFormat_ne body pmid p key h h4,
      payloadGet_addTools_ne body pbase pmid key haddt h2 h3]

/-- Looking up any key other than the four post-filter additions in a payload
built by `buildPayload` reduces to looking it up in the filtered base dict. -/
theorem buildPayload_base_lookup (mn : String) (pms : List OutMessage)
    (sys : Option ContentIn) (body : Body) (p : List (String × PyVal)) (key : String)
    (h : buildPayload mn pms sys body = Except.ok p)
    (h1 : key ≠ "system") (h2 : key ≠ "tools") (h3 : key ≠ "tool_choice")
    (h4 : key ≠ "response_format") :
    ∃ maxTok, effectiveMaxTokens mn body.maxTokens = Except.ok maxTok ∧
      payloadGet p key
        = payloadGet ((basePayload mn pms maxTok body).filter (fun kv => !kv.2.isNone)) key := by
  rw [buildPayload] at h
  cases heff : effectiveMaxTokens mn body.maxTokens with
  | error e => rw [heff] at h; cases h
  | ok maxTok =>
    rw [heff] at h
    refine ⟨maxTok, rfl, ?_⟩
    cases sys with
    | none => exact payload_tail_lookup body _ p key h h2 h3 h4
    | some c =>
      rw [payload_tail_lookup body _ p key h h2 h3 h4, payloadGet_dictSet, if_neg h1]

theorem payloadGet_baseFiltered_maxTokens (mn : String) (pms : List OutMessage)
    (maxTok : Int) (body : Body) :
    payloadGet ((basePayload mn pms maxTok body).filter (fun kv => !kv.2.isNone))
      "max_tokens" = some (PyVal.int maxTok) := by
  simp [basePayload, List.filter, PyVal.isNone, payloadGet]

/-! ## C3 — the max-tokens cap -/

/-- C3: for a model name absent from `MODEL_MAX_TOKENS`, the effective
max-tokens is `min(requested, 4096)` when a value was requested and 4096 when
not, hence never exceeds 4096; in general, for every model it is
`min(requested or ceiling, ceiling)` with the model's table ceiling, and that
value is what the built payload carries under `max_tokens`. -/
theorem c3_max_tokens_cap (modelName : String) (n : Int)
    (hm : modelName ∉ MODEL_MAX_TOKENS.map Prod.fst) :
    (effectiveMaxTokens modelName (PyOpt.val n) = Except.ok (min n 4096)
      ∧ effectiveMaxTokens modelName PyOpt.absent = Except.ok 4096
      ∧ min n 4096 ≤ 4096)
    ∧ (∀ (m : String) (r : Int),
        effectiveMaxTokens m (PyOpt.val r)
          = Except.ok (min r (Int.ofNat (maxTokensLimit m))))
    ∧ (∀ (m : String),
        effectiveMaxTokens m PyOpt.absent
          = Except.ok (Int.ofNat (maxTokensLimit m)))
    ∧ (∀ (pms : List OutMessage) (sys : Option ContentIn) (body : Body)
        (p : List (String × PyVal)),
        body.maxTokens = PyOpt.val n →
        buildPayload modelName pms sys body = Except.ok p →
        payloadGet p "max_tokens" = some (PyVal.int (min n 4096))) := by
  have hl : maxTokensLimit modelName = 4096 := maxTokensLimit_of_not_mem modelName hm
  refine ⟨⟨?_, ?_, min_le_right n 4096⟩, ?_, ?_, ?_⟩
  · simp [effectiveMaxTokens, hl]
  · simp [effectiveMaxTokens, hl]
  · intro m r
    simp [effectiveMaxTokens]
  · intro m
    simp [effectiveMaxTokens]
  · intro pms sys body p hreq hp
    obtain ⟨maxTok, heff, hlook⟩ := buildPayload_base_lookup modelName pms sys body p
      "max_tokens" hp (by decide) (by decide) (by decide) (by decide)
    rw [hreq] at heff
    simp only [effectiveMaxTokens, hl] at heff
    cases heff
    rw [hlook, payloadGet_baseFiltered_maxTokens]
    norm_num

/-- C3 (witness): a request for 100000 tokens on the unknown model name
`claude-2` is capped to 4096 in the built payload. -/
theorem c3_max_tokens_cap_witness :
    payloadGet c3Payload "max_tokens" = some (PyVal.int (min 100000 4096)) :=
  (c3_max_tokens_cap "claude-2" 100000 (by decide)).2.2.2
    [] Option.none c3Body c3Payload rfl rfl

theorem mem_dictSet (p : List (String × PyVal)) (k : String) (v : PyVal)
    (k' : String) (v' : PyVal) (h : (k', v') ∈ dictSet p k v) :
    (k', v') ∈ p ∨ (k' = k ∧ v' = v) := by
  induction p with
  | nil =>
    simp only [dictSet, List.mem_cons, List.not_mem_nil, or_false, Prod.mk.injEq] at h
    exact Or.inr h
  | cons kv rest ih =>
    obtain ⟨k0, v0⟩ := kv
    by_cases h0 : k0 = k
    · simp only [dictSet, h0, if_true, List.mem_cons, Prod.mk.injEq] at h
      rcases h with h | h
      · exact Or.inr h
      · exact Or.inl (List.mem_cons_of_mem _ h)
    · simp only [dictSet, h0, if_false, List.mem_cons] at h
      rcases h with h | h
      · exact Or.inl (by simp [h])
      · rcases ih h with hh | hh
        · exact Or.inl (List.mem_cons_of_mem _ hh)
        · exact Or.inr hh

/-- A base-dict key every one of whose bindings is `None`-valued is absent
from the finished payload (provided it is none of the four post-filter
additions). -/
theorem payloadGet_opt_none (mn : String) (pms : List OutMessage)
    (sys : Option ContentIn) (body : Body) (p : List (String × PyVal)) (key : String)
    (hp : buildPayload mn pms sys body = Except.ok p)
    (h1 : key ≠ "system") (h2 : key ≠ "tools") (h3 : key ≠ "tool_choice")
    (h4 : key ≠ "response_format")
    (hbase : ∀ (maxTok : Int), ∀ kv ∈ basePayload mn pms maxTok body,
      kv.1 = key → kv.2.isNone = true) :
    payloadGet p key = Option.none := by
  obtain ⟨maxTok, -, hlook⟩ := buildPayload_base_lookup mn pms sys body p
    key hp h1 h2 h3 h4
  rw [hlook]
  exact payloadGet_filter_none _ _ (hbase maxTok)

/-- Any `None`-valued entry that survives into the payload after the tools
and response-format stages either was in the incoming dict or is the
`tool_choice` entry. -/
theorem mem_tail_none_is_toolchoice (body : Body) (pbase p : List (String × PyVal))
    (k : String) (v : PyVal)
    (h : (match addTools body pbase with
          | Except.error e => Except.error e
          | Except.ok p2 => addResponseFormat body p2) = Except.ok p)
    (hmem : (k, v) ∈ p) (hv : v = PyVal.none)
    (hbase : ∀ k' v', (k', v') ∈ pbase → v' = PyVal.none → k' = "tool_choice") :
    k = "tool_choice" := by
  cases haddt : addTools body pbase with
  | error e => rw [haddt] at h; cases h
  | ok pmid =>
    rw [haddt] at h
    have hmid : ∀ k' v', (k', v') ∈ pmid → v' = PyVal.none → k' = "tool_choice" := by
      cases htools : body.tools with
      | absent => simp only [addTools, htools] at haddt; cases haddt; exact hbase
      | null => simp only [addTools, htools] at haddt; cases haddt
      | val ts =>
        simp only [addTools, htools] at haddt
        cases haddt
        intro k' v' hm hv'
        rcases mem_dictSet _ _ _ _ _ hm with hm2 | hkv
        · rcases mem_dictSet _ _ _ _ _ hm2 with hm3 | hkv2
          · exact hbase k' v' hm3 hv'
          · rw [hkv2.2] at hv'
            exact PyVal.noConfusion hv'
        · exact hkv.1
    cases hrf : body.responseFormat with
    | absent =>
      simp only [addResponseFormat, hrf] at h
      cases h
      exact hmid k v hmem hv
    | null => simp only [addResponseFormat, hrf] at h; cases h
    | val t =>
      simp only [addResponseFormat, hrf] at h
      cases h
      rcases mem_dictSet _ _ _ _ _ hmem with hm | hkv
      · exact hmid k v hm hv
      · rw [hkv.2] at hv
        exact PyVal.noConfusion hv

/-- A body whose `stream` is absent (or `None`) yields a payload with no
`stream` key at all. -/
theorem payloadGet_stream_none (mn : String) (pms : List OutMessage)
    (sys : Option ContentIn) (body : Body) (p : List (String × PyVal))
    (hs : body.stream = Option.none)
    (hp : buildPayload mn pms sys body = Except.ok p) :
    payloadGet p "stream" = Option.none := by
  obtain ⟨maxTok, -, hlook⟩ := buildPayload_base_lookup mn pms sys body p
    "stream" hp (by decide) (by decide) (by decide) (by decide)
  rw [hlook]
  apply payloadGet_filter_none
  intro kv hkv hkey
  simp only [basePayload, List.mem_cons, List.not_mem_nil, or_false] at hkv
  rcases hkv with h | h | h | h | h | h | h | h <;> subst h <;>
    simp_all [optBool, PyVal.isNone]

/-! ## C4 — inline image size gate -/

/-- C4: for every inline (base64) image item of a supported media type,
`process_image` normalizes the data URL into a base64-source image item
without ever decoding pixels (the embedding manipulates only the encoded
string), and the `_process_messages` size gate succeeds exactly when the
estimated decoded size `len * 3 / 4` is at most 5 MiB; beyond that it raises
a validation error whose message carries the computed size
(`imageSizeMsg (3 * len)` renders that estimate in megabytes). -/
theorem c4_image_size_gate (mt data role : String)
    (hmt : mt ∈ SUPPORTED_IMAGE_TYPES) :
    process_image (dataUrl mt data) = Except.ok (imgItem mt data)
    ∧ (3 * data.length ≤ 4 * MAX_IMAGE_SIZE →
        processMessageItem role (imgItem mt data) = Except.ok (imgItem mt data))
    ∧ (3 * data.length > 4 * MAX_IMAGE_SIZE →
        processMessageItem role (imgItem mt data)
          = Except.error (PyExn.valueError (imageSizeMsg (3 * data.length)))) := by
  refine ⟨?_, ?_, ?_⟩
  · have hmt' := hmt
    simp only [SUPPORTED_IMAGE_TYPES] at hmt'
    fin_cases hmt'
    · exact process_image_dataUrl_eval "image/jpeg" data
        ("data:image/jpeg;base64").toList (by decide) (by decide) (by decide)
        (by decide) hmt
    · exact process_image_dataUrl_eval "image/png" data
        ("data:image/png;base64").toList (by decide) (by decide) (by decide)
        (by decide) hmt
    · exact process_image_dataUrl_eval "image/gif" data
        ("data:image/gif;base64").toList (by decide) (by decide) (by decide)
        (by decide) hmt
    · exact process_image_dataUrl_eval "image/webp" data
        ("data:image/webp;base64").toList (by decide) (by decide) (by decide)
        (by decide) hmt
  · intro hle
    simp only [processMessageItem, imgItem]
    rw [if_neg (by simp), if_neg (by simp)]
    simp only [if_true]
    rw [if_neg (by omega), if_neg (fun hn => hn hmt)]
  · intro hgt
    simp only [processMessageItem, imgItem]
    rw [if_neg (by simp), if_neg (by simp)]
    simp only [if_true]
    rw [if_pos hgt]

/-- C4 (witness): a small png data URL normalizes successfully and passes the
size gate. -/
theorem c4_image_size_gate_witness :
    process_image (dataUrl "image/png" "AAAA") = Except.ok (imgItem "image/png" "AAAA")
    ∧ processMessageItem "user" (imgItem "image/png" "AAAA")
      = Except.ok (imgItem "image/png" "AAAA") :=
  ⟨(c4_image_size_gate "image/png" "AAAA" "user" (by decide)).1,
   (c4_image_size_gate "image/png" "AAAA" "user" (by decide)).2.1 (by decide)⟩

/-! ## C5 — pdf items are gated on the model allow-list -/

/-- C5: a `pdf_url` content item is accepted only when its associated model
identifier (last `/` component of `item.get("model", "")`) is in
`SUPPORTED_PDF_MODELS`; otherwise content processing raises a configuration
error whose message names the supported models, and — as the third conjunct
states for the concrete `c5Body` and **every** transport — `pipe` returns
that error text during content processing, before any network call is
made. -/
theorem c5_pdf_model_allowlist (url : String) (model : Option String)
    (cc : Option Json) (rest : List InItem)
    (hm : lastPathComponent (model.getD "") ∉ SUPPORTED_PDF_MODELS) :
    process_content_items (InItem.pdfUrl url model cc :: rest)
      = Except.error (PyExn.valueError pdfModelsMsg)
    ∧ (∀ (m2 : Option String),
        lastPathComponent (m2.getD "") ∈ SUPPORTED_PDF_MODELS →
        process_content_items (InItem.pdfUrl url m2 cc :: rest)
          = match process_pdf url cc with
            | Except.error e => Except.error e
            | Except.ok it =>
              match process_content_items rest with
              | Except.error e => Except.error e
              | Except.ok out => Except.ok (it :: out))
    ∧ (∀ (st : PipeState) (tr : Transport) (k : String),
        ¬ k = "" → st.requestId = Option.none →
        pipe st tr k c5Body
          = (PipeResult.errorText ("Error: " ++ pdfModelsMsg), st)) := by
  refine ⟨?_, ?_, ?_⟩
  · simp only [process_content_items]
    rw [if_neg hm]
  · intro m2 hm2
    simp only [process_content_items]
    rw [if_pos hm2]
  · intro st tr k hk hr
    have hpm : processMessages (popSystemMessage c5Body.messages).2
        = Except.error (PyExn.valueError pdfModelsMsg) := rfl
    simp only [pipe, if_neg hk, hpm, withRequestId, hr, renderExn]

/-- C5 (witness): the concrete unsupported-model pdf item `c5Item` is
rejected during content processing and `pipe` surfaces the error for an
arbitrary concrete transport. -/
theorem c5_pdf_model_allowlist_witness :
    process_content_items [c5Item] = Except.error (PyExn.valueError pdfModelsMsg)
    ∧ pipe pipeState0 idleTransport "k" c5Body
        = (PipeResult.errorText ("Error: " ++ pdfModelsMsg), pipeState0) :=
  ⟨(c5_pdf_model_allowlist "https://example.com/doc.pdf"
      (some "anthropic/claude-3-opus-20240229") Option.none [] (by decide)).1,
   (c5_pdf_model_allowlist "https://example.com/doc.pdf"
      (some "anthropic/claude-3-opus-20240229") Option.none [] (by decide)).2.2
      pipeState0 idleTransport "k" (by decide) rfl⟩

/-! ## C6 — None-valued fields and the payload -/

/-- C6: the claim states that no payload key is ever present with a null
value.  Counterexample: for the body `c6Body`, which supplies `tools` but no
`tool_choice`, the built payload carries the key `tool_choice` with the value
`None` — `payload["tool_choice"] = body.get("tool_choice")` runs after the
None-filter. -/
theorem c6_counterexample :
    buildPayload "claude-3-opus-20240229" [] Option.none c6Body = Except.ok c6Payload
    ∧ payloadGet c6Payload "tool_choice" = some PyVal.none
    ∧ ("tool_choice", PyVal.none) ∈ c6Payload :=
  ⟨rfl, rfl, by simp [c6Payload]⟩

/-- C6 (amended): the optional generation parameters `temperature`, `top_k`,
`top_p` and `stream` are omitted entirely from the payload when absent or
`None` in the inbound body.  `max_tokens` and `metadata` are **not** omitted
when absent: an absent `max_tokens` is defaulted to the model's ceiling
(line 206) and an absent `metadata` to the empty dict (line 220), both
present in the payload; an explicitly-`None` `max_tokens` makes payload
construction raise a TypeError (`min(None, int)`), so no payload exists, and
an explicitly-`None` `metadata` is filtered out.  The no-null invariant has
exactly one exception: `tool_choice`, written after the None-filter when
tools are supplied — any `None`-valued entry of the payload is the
`tool_choice` entry. -/
theorem c6_amended (mn : String) (pms : List OutMessage) (sys : Option ContentIn)
    (body : Body) (p : List (String × PyVal))
    (hp : buildPayload mn pms sys body = Except.ok p) :
    (∀ k v, (k, v) ∈ p → v = PyVal.none → k = "tool_choice")
    ∧ (body.temperature = Option.none → payloadGet p "temperature" = Option.none)
    ∧ (body.topK = Option.none → payloadGet p "top_k" = Option.none)
    ∧ (body.topP = Option.none → payloadGet p "top_p" = Option.none)
    ∧ (body.stream = Option.none → payloadGet p "stream" = Option.none)
    ∧ (body.maxTokens = PyOpt.absent →
        payloadGet p "max_tokens" = some (PyVal.int (Int.ofNat (maxTokensLimit mn))))
    ∧ body.maxTokens ≠ PyOpt.null
    ∧ (body.metadata = PyOpt.absent →
        payloadGet p "metadata" = some (PyVal.dict []))
    ∧ (body.metadata = PyOpt.null → payloadGet p "metadata" = Option.none) := by
  refine ⟨?_, ?_, ?_, ?_, ?_, ?_, ?_, ?_, ?_⟩
  · intro k v hmem hv
    rw [buildPayload] at hp
    cases heff : effectiveMaxTokens mn body.maxTokens with
    | error e => rw [heff] at hp; cases hp
    | ok maxTok =>
      rw [heff] at hp
      cases sys with
      | none =>
        apply mem_tail_none_is_toolchoice body _ p k v hp hmem hv
        intro k' v' hm hv'
        have hpred := (List.mem_filter.mp hm).2
        rw [hv'] at hpred
        simp [PyVal.isNone] at hpred
      | some c =>
        apply mem_tail_none_is_toolchoice body _ p k v hp hmem hv
        intro k' v' hm hv'
        rcases mem_dictSet _ _ _ _ _ hm with hm2 | hkv
        · have hpred := (List.mem_filter.mp hm2).2
          rw [hv'] at hpred
          simp [PyVal.isNone] at hpred
        · rw [hkv.2] at hv'
          exact PyVal.noConfusion hv'
  · intro hval
    apply payloadGet_opt_none mn pms sys body p "temperature" hp
      (by decide) (by decide) (by decide) (by decide)
    intro maxTok kv hkv hkey
    simp only [basePayload, List.mem_cons, List.not_mem_nil, or_false] at hkv
    rcases hkv with h | h | h | h | h | h | h | h <;> subst h <;>
      simp_all [optFloat, optInt, optBool, PyVal.isNone]
  · intro hval
    apply payloadGet_opt_none mn pms sys body p "top_k" hp
      (by decide) (by decide) (by decide) (by decide)
    intro maxTok kv hkv hkey
    simp only [basePayload, List.mem_cons, List.not_mem_nil, or_false] at hkv
    rcases hkv with h | h | h | h | h | h | h | h <;> subst h <;>
      simp_all [optFloat, optInt, optBool, PyVal.isNone]
  · intro hval
    apply payloadGet_opt_none mn pms sys body p "top_p" hp
      (by decide) (by decide) (by decide) (by decide)
    intro maxTok kv hkv hkey
    simp only [basePayload, List.mem_cons, List.not_mem_nil, or_false] at hkv
    rcases hkv with h | h | h | h | h | h | h | h <;> subst h <;>
      simp_all [optFloat, optInt, optBool, PyVal.isNone]
  · intro hval
    exact payloadGet_stream_none mn pms sys body p hval hp
  · intro habs
    obtain ⟨maxTok, heff, hlook⟩ := buildPayload_base_lookup mn pms sys body p
      "max_tokens" hp (by decide) (by decide) (by decide) (by decide)
    rw [habs] at heff
    simp only [effectiveMaxTokens] at heff
    cases heff
    rw [hlook, payloadGet_baseFiltered_maxTokens]
    simp
  · intro hnull
    have hefferr : effectiveMaxTokens mn body.maxTokens
        = Except.error PyExn.typeError := by
      rw [hnull]
      rfl
    rw [buildPayload, hefferr] at hp
    cases hp
  · intro habs
    obtain ⟨maxTok, -, hlook⟩ := buildPayload_base_lookup mn pms sys body p
      "metadata" hp (by decide) (by decide) (by decide) (by decide)
    rw [hlook]
    apply payloadGet_filter_found
    · simp [basePayload, habs, metadataVal]
    · intro kv hkv hkey
      simp only [basePayload, List.mem_cons, List.not_mem_nil, or_false] at hkv
      rcases hkv with h | h | h | h | h | h | h | h <;> subst h <;>
        simp_all [metadataVal, optFloat, optInt, optBool]
    · rfl
  · intro hnull
    apply payloadGet_opt_none mn pms sys body p "metadata" hp
      (by decide) (by decide) (by decide) (by decide)
    intro maxTok kv hkv hkey
    simp only [basePayload, List.mem_cons, List.not_mem_nil, or_false] at hkv
    rcases hkv with h | h | h | h | h | h | h | h <;> subst h <;>
      simp_all [metadataVal, optFloat, optInt, optBool, PyVal.isNone]

/-- C6 (amended, witness): on the concrete `c6Body` payload (temperature and
metadata both absent in the body), the `temperature` key is omitted entirely
while the `metadata` key is present with the defaulted empty dict. -/
theorem c6_amended_witness :
    payloadGet c6Payload "temperature" = Option.none
    ∧ payloadGet c6Payload "metadata" = some (PyVal.dict []) :=
  ⟨(c6_amended "claude-3-opus-20240229" [] Option.none c6Body c6Payload rfl).2.1 rfl,
   (c6_amended "claude-3-opus-20240229" [] Option.none c6Body c6Payload
      rfl).2.2.2.2.2.2.2.1 rfl⟩

/-! ## C8 — the captured request id is shared mutable state across calls -/

/-- C8: the claim states that successive `pipe` calls on one instance are
independent and that the request identifier appended to error messages
belongs to the current call only.  Counterexample: a first (streaming) call
on a fresh instance stores `req-1` from its response headers into
`self.request_id`; a second call that fails validation then carries
`(Request ID: req-1)` — captured during the previous call — in its error
message, whereas the same second call on a fresh instance does not, so the
second call's result depends on the first call. -/
theorem c8_counterexample :
    (pipe pipeState0 c8Transport "k" c8StreamBody).2 = { requestId := some "req-1" }
    ∧ (pipe { requestId := some "req-1" } c8Transport "k" c8ErrBody).1
        = PipeResult.errorText ("Error: " ++ pdfModelsMsg ++ " (Request ID: req-1)")
    ∧ (pipe pipeState0 c8Transport "k" c8ErrBody).1
        = PipeResult.errorText ("Error: " ++ pdfModelsMsg)
    ∧ (pipe { requestId := some "req-1" } c8Transport "k" c8ErrBody).1
        ≠ (pipe pipeState0 c8Transport "k" c8ErrBody).1 := by
  refine ⟨rfl, rfl, rfl, ?_⟩
  rw [show (pipe { requestId := some "req-1" } c8Transport "k" c8ErrBody).1
      = PipeResult.errorText ("Error: " ++ pdfModelsMsg ++ " (Request ID: req-1)") from rfl,
    show (pipe pipeState0 c8Transport "k" c8ErrBody).1
      = PipeResult.errorText ("Error: " ++ pdfModelsMsg) from rfl]
  intro h
  injection h with hs
  exact absurd hs (by decide)

/-- C8 (amended): `self.request_id` is instance state that persists across
calls: whenever the instance state holds a request id `rid` (e.g. left over
from an earlier call), a later call that fails validation annotates its error
message with that leftover `rid`; and a streaming call overwrites the stored
id with the `x-request-id` header of its own response, for every transport
and every starting state.  Each call still owns its own retry state
(`sendRequest` is a pure function of the call's transport). -/
theorem c8_amended (st : PipeState) (rid : String) (tr : Transport) (k : String)
    (hst : st.requestId = some rid) (hk : ¬ k = "") :
    (pipe st tr k c8ErrBody).1
      = PipeResult.errorText ("Error: " ++ pdfModelsMsg ++ " (Request ID: " ++ rid ++ ")")
    ∧ ∀ (tr2 : Transport) (st2 : PipeState),
        (pipe st2 tr2 k c8StreamBody).2.requestId = tr2.streamResp.xRequestId := by
  constructor
  · have hpm : processMessages (popSystemMessage c8ErrBody.messages).2
        = Except.error (PyExn.valueError pdfModelsMsg) := rfl
    simp only [pipe, if_neg hk, hpm, withRequestId, hst, renderExn]
  · intro tr2 st2
    have h1 : processMessages (popSystemMessage c8StreamBody.messages).2
        = Except.ok [] := rfl
    have h2 : buildPayload (lastPathComponent c8StreamBody.model) []
        (popSystemMessage c8StreamBody.messages).1 c8StreamBody
        = Except.ok c8Payload := rfl
    have h3 : payloadGet c8Payload "stream" = some (PyVal.bool true) := rfl
    simp only [pipe, if_neg hk, h1, h2, h3, PyVal.truthy, if_true]
    simp only [streamWithUI]
    by_cases hs : tr2.streamResp.status = 200
    · simp only [hs, ne_eq, not_true_eq_false, if_false]
      rcases hds : decodeStream tr2.streamResp.lines with ⟨fs, ending⟩
      cases ending <;> simp [hds]
    · simp [hs]

/-- C8 (amended, witness): the amended statement instantiated on the state
left behind by the first call of the counterexample. -/
theorem c8_amended_witness :
    (pipe { requestId := some "req-1" } c8Transport "k" c8ErrBody).1
      = PipeResult.errorText
          ("Error: " ++ pdfModelsMsg ++ " (Request ID: " ++ "req-1" ++ ")") :=
  (c8_amended { requestId := some "req-1" } "req-1" c8Transport "k" rfl
    (by decide)).1

/-! ## C9 — cache-control annotations -/

theorem process_image_shape (url : String) (it : OutItem)
    (h : process_image url = Except.ok it) :
    it.type = "image" ∧ it.cacheControl = Option.none := by
  rw [process_image] at h
  split at h
  · split at h
    · cases h
    · dsimp only at h
      split at h
      · cases h
        exact ⟨rfl, rfl⟩
      · cases h
  · cases h
    exact ⟨rfl, rfl⟩

theorem process_pdf_shape (url : String) (cc : Option Json) (d : OutItem)
    (h : process_pdf url cc = Except.ok d) :
    d.type = "document" ∧ (ccTruthy cc = true → d.cacheControl = cc) := by
  rw [process_pdf] at h
  split at h
  · split at h
    · cases h
    · cases h
      by_cases ht : ccTruthy cc = true
      · rw [if_pos ht]
        exact ⟨rfl, fun _ => rfl⟩
      · rw [if_neg ht]
        exact ⟨rfl, fun hh => absurd hh ht⟩
  · cases h
    by_cases ht : ccTruthy cc = true
    · rw [if_pos ht]
      exact ⟨rfl, fun _ => rfl⟩
    · rw [if_neg ht]
      exact ⟨rfl, fun hh => absurd hh ht⟩

/-- C9: the claim states (among other things) that any content item already
carrying a document/image cache hint keeps its cache-control annotation in
the outbound payload.  Counterexample: an `image_url` item carrying the
truthy cache hint `c9cc` is normalized by `process_content` into an image
item with **no** `cache_control` key — `process_image` drops the hint. -/
theorem c9_counterexample :
    process_content (ContentIn.items [InItem.imageUrl "https://x/img.png" (some c9cc)])
      = Except.ok [{ type := "image", source := some (Source.url "https://x/img.png") }]
    ∧ jsonTruthy c9cc = true
    ∧ ({ type := "image", source := some (Source.url "https://x/img.png") }
        : OutItem).cacheControl = Option.none :=
  ⟨rfl, rfl, rfl⟩

/-- C9 (amended): the automatic ephemeral cache-control annotation for
tool-call/tool-result items never fires, because `process_content` silently
drops items of any kind other than text/image_url/pdf_url (in particular
tool_calls/tool_results items), every item it emits has type
text/image/document, and on such items `processMessageItem` is the identity
whenever it succeeds; a document (pdf) item carrying a truthy cache hint
keeps it, but an image item's cache hint is dropped by `process_image`. -/
theorem c9_amended :
    (∀ (ty : String) (cc : Option Json) (rest : List InItem),
        process_content_items (InItem.other ty cc :: rest) = process_content_items rest)
    ∧ (∀ (l : List InItem) (out : List OutItem),
        process_content_items l = Except.ok out →
        ∀ c ∈ out, c.type = "text" ∨ c.type = "image" ∨ c.type = "document")
    ∧ (∀ (role : String) (c c2 : OutItem),
        (c.type = "text" ∨ c.type = "image" ∨ c.type = "document") →
        processMessageItem role c = Except.ok c2 → c2 = c)
    ∧ (∀ (url : String) (hint : Json) (d : OutItem), jsonTruthy hint = true →
        process_pdf url (some hint) = Except.ok d → d.cacheControl = some hint)
    ∧ (∀ (url : String) (c2 : OutItem),
        process_image url = Except.ok c2 → c2.cacheControl = Option.none) := by
  refine ⟨fun _ _ _ => rfl, ?_, ?_, ?_, ?_⟩
  · intro l
    induction l with
    | nil =>
      intro out h c hc
      simp only [process_content_items] at h
      cases h
      simp at hc
    | cons item rest ih =>
      intro out h c hc
      cases item with
      | text s =>
        simp only [process_content_items] at h
        cases hrest : process_content_items rest with
        | error e => rw [hrest] at h; cases h
        | ok out2 =>
          rw [hrest] at h
          cases h
          rcases List.mem_cons.mp hc with hc1 | hc2
          · left; rw [hc1]
          · exact ih out2 hrest c hc2
      | imageUrl url cc =>
        simp only [process_content_items] at h
        cases himg : process_image url with
        | error e => rw [himg] at h; cases h
        | ok it =>
          rw [himg] at h
          cases hrest : process_content_items rest with
          | error e => rw [hrest] at h; cases h
          | ok out2 =>
            rw [hrest] at h
            cases h
            rcases List.mem_cons.mp hc with hc1 | hc2
            · right; left; rw [hc1]; exact (process_image_shape url it himg).1
            · exact ih out2 hrest c hc2
      | pdfUrl url model cc =>
        simp only [process_content_items] at h
        by_cases hm : lastPathComponent (model.getD "") ∈ SUPPORTED_PDF_MODELS
        · rw [if_pos hm] at h
          cases hpdf : process_pdf url cc with
          | error e => rw [hpdf] at h; cases h
          | ok d =>
            rw [hpdf] at h
            cases hrest : process_content_items rest with
            | error e => rw [hrest] at h; cases h
            | ok out2 =>
              rw [hrest] at h
              cases h
              rcases List.mem_cons.mp hc with hc1 | hc2
              · right; right; rw [hc1]; exact (process_pdf_shape url cc d hpdf).1
              · exact ih out2 hrest c hc2
        · rw [if_neg hm] at h
          cases h
      | other ty cc =>
        simp only [process_content_items] at h
        exact ih out h c hc
  · intro role c c2 hty h
    have ht1 : ¬ (role = "assistant" ∧ c.type = "tool_calls") := by
      rcases hty with h1 | h1 | h1 <;> simp [h1]
    have ht2 : ¬ (role = "user" ∧ c.type = "tool_results") := by
      rcases hty with h1 | h1 | h1 <;> simp [h1]
    rw [processMessageItem, if_neg ht1, if_neg ht2] at h
    split at h
    · split at h
      · split at h
        · cases h
        · split at h
          · cases h
          · cases h; rfl
      · cases h; rfl
      · cases h
    · cases h; rfl
  · intro url hint d ht h
    exact (process_pdf_shape url (some hint) d h).2 (by simpa [ccTruthy] using ht)
  · intro url c2 h
    exact (process_image_shape url c2 h).2

/-- C9 (amended, witness): a `tool_calls`-tagged item is dropped by
`process_content`, so the annotation step never sees it. -/
theorem c9_amended_witness :
    process_content_items [InItem.other "tool_calls" Option.none]
      = process_content_items [] :=
  c9_amended.1 "tool_calls" Option.none []

/-! ## C10 — an absent stream flag aborts with a KeyError before any call -/

/-- C10: with a configured API key, a body whose `stream` key is absent (or
`None`) makes `pipe` return the error-text result `Error: 'stream'` — the
filtered payload has no `stream` key, `payload["stream"]` raises a KeyError,
and the outer handler renders it — for **every** transport, and the instance
state is untouched: neither the streaming nor the non-streaming provider call
happens. -/
theorem c10_missing_stream_key (st : PipeState) (tr : Transport) (k : String)
    (body : Body) (pms : List OutMessage) (p : List (String × PyVal))
    (hk : ¬ k = "") (hr : st.requestId = Option.none)
    (hs : body.stream = Option.none)
    (hmsgs : processMessages (popSystemMessage body.messages).2 = Except.ok pms)
    (hp : buildPayload (lastPathComponent body.model) pms
      (popSystemMessage body.messages).1 body = Except.ok p) :
    pipe st tr k body = (PipeResult.errorText "Error: 'stream'", st) := by
  have hstream := payloadGet_stream_none _ _ _ _ _ hs hp
  simp only [pipe, if_neg hk, hmsgs, hp, hstream, withRequestId, hr, renderExn]
  rfl

/-- C10 (witness): the concrete `minimalBody` (no `stream` key) with any
transport. -/
theorem c10_missing_stream_key_witness :
    pipe pipeState0 idleTransport "k" minimalBody
      = (PipeResult.errorText "Error: 'stream'", pipeState0) :=
  c10_missing_stream_key pipeState0 idleTransport "k" minimalBody [] c10Payload
    (by decide) rfl rfl rfl rfl

/-! ## C1 — retry behavior of `_send_request` -/

/-- C1: the claim states that for three consecutive 429 responses followed by
a 200, `_send_request` performs three retries and returns the final 200
response, and that on exhaustion it returns the last response object.  On the
concrete sequence `c1Seq` the loop performs its three attempts (sleeping the
non-decreasing intervals 1, 2, 4), never issues the fourth POST that would
receive the 200, and returns a freshly constructed blank response — not the
final 200 response (`c1Seq 3`), and not the last received response either. -/
theorem c1_counterexample :
    sendRequest c1Seq = ([1, 2, 4], SendResult.blank)
    ∧ (c1Seq 3).status = 200
    ∧ (sendRequest c1Seq).2 ≠ SendResult.response (c1Seq 3) :=
  ⟨rfl, rfl, fun h => SendResult.noConfusion h⟩

/-- C1 (amended): when the first three responses are 429 without a
`retry-after` header, `_send_request` makes exactly three POST attempts with
the non-decreasing waits 1, 2, 4 seconds (`base_delay * 2 ** attempt`), never
requests a fourth response, and returns a fresh blank response object; a
non-429 response among the first three is returned as soon as it arrives
(e.g. a 200 on the third attempt, after waits 1, 2). -/
theorem c1_amended (responses : Nat → Resp)
    (h0 : (responses 0).status = 429) (r0 : (responses 0).retryAfter = Option.none)
    (h1 : (responses 1).status = 429) (r1 : (responses 1).retryAfter = Option.none)
    (h2 : (responses 2).status = 429) (r2 : (responses 2).retryAfter = Option.none) :
    sendRequest responses = ([1, 2, 4], SendResult.blank)
    ∧ ∀ responses2 : Nat → Resp,
        (responses2 0).status = 429 → (responses2 0).retryAfter = Option.none →
        (responses2 1).status = 429 → (responses2 1).retryAfter = Option.none →
        (responses2 2).status ≠ 429 →
        sendRequest responses2 = ([1, 2], SendResult.response (responses2 2)) := by
  constructor
  · show sendRequestLoop responses 1 0 (2 + 1) = ([1, 2, 4], SendResult.blank)
    rw [sendRequestLoop, if_pos h0, show (2 : Nat) = 1 + 1 from rfl, sendRequestLoop,
      if_pos h1, sendRequestLoop, if_pos h2]
    simp [r0, r1, r2, sendRequestLoop]
  · intro rs g0 s0 g1 s1 g2
    show sendRequestLoop rs 1 0 (2 + 1) = ([1, 2], SendResult.response (rs 2))
    rw [sendRequestLoop, if_pos g0, show (2 : Nat) = 1 + 1 from rfl, sendRequestLoop,
      if_pos g1, sendRequestLoop, if_neg g2]
    simp [s0, s1]

/-- C1 (amended, witness): the amended statement instantiated on the concrete
sequence `c1Seq` of three 429s followed by a 200. -/
theorem c1_amended_witness :
    sendRequest c1Seq = ([1, 2, 4], SendResult.blank) :=
  (c1_amended c1Seq rfl rfl rfl rfl rfl rfl).1

/-! ## C2 — stream decoding of two text deltas and a message stop -/

/-- C2: for the streaming body
`data: ...content_block_delta..."A"...`, `data: ...content_block_delta..."B"...`,
`data: ...message_stop...` delivered with initial status 200, the decoder
yields exactly the fragments "A" then "B" and then terminates on the
message-stop event without yielding anything further (and the generator as a
whole produces exactly those fragments). -/
theorem c2_stream_yields_exactly :
    decodeStream [c2Line1, c2Line2, c2Line3]
      = ([Json.str "A", Json.str "B"], StreamEnd.completed)
    ∧ streamWithUI pipeState0 c2Resp
      = ([Json.str "A", Json.str "B"], { requestId := Option.none }) :=
  ⟨rfl, rfl⟩

/-! ## C7 — malformed stream lines are skipped -/

/-- C7: a line that begins with `data: ` but whose remainder is not valid
JSON is skipped (after logging, which is outside the model): decoding the
stream starting at that line equals decoding the remaining lines, so
subsequent fragments are still consumed and yielded and the stream is never
aborted by the malformed line. -/
theorem c7_malformed_line_skipped (line : List Char) (rest : List (List Char))
    (hd : dataTag.isPrefixOf line = true)
    (hbad : jsonParse (line.drop 6) = Option.none) :
    decodeStream (line :: rest) = decodeStream rest := by
  have hne : line ≠ [] := by
    intro h
    rw [h] at hd
    exact absurd hd (by decide)
  rw [decodeStream, if_pos ⟨hne, hd⟩, hbad]

/-- C7 (witness): the malformed line `data: ` + `not-JSON` before the C2
lines is skipped and the following fragments are still yielded. -/
theorem c7_malformed_line_skipped_witness :
    decodeStream [c7BadLine, c2Line1, c2Line3] = decodeStream [c2Line1, c2Line3] :=
  c7_malformed_line_skipped c7BadLine [c2Line1, c2Line3] (by decide) rfl

end AnthropicPipe
